import Mathlib

/-!
Shallow embedding of the druppelt/shelly-scripts load-shedding controller
(the hysteresis revision of the script; the toolbox call dispatcher is
embedded separately below).

JavaScript numbers are IEEE doubles; every quantity handled by the script
in the scenarios of interest is an integral number of watts or
milliseconds, on which double arithmetic (addition, negation, comparison)
is exact, so powers and times are modelled as ℤ.  The single true
division in the script, `power_hysteresis_span / 2`, is formed in ℚ via
casts so that halving stays exact for odd spans.  JavaScript `undefined`
fields are modelled with `Option`.
-/

namespace LoadShedding

/-- A controllable device, as configured in the `devices` array.
`descr`, `addr`, `type` and `channel` only feed the command URL string and
are not modelled; a network command is identified by device name and
direction instead.  `presumed_state` and `requires_sync` start out absent
(`undefined` / falsy) on the configuration literals. -/
structure Device where
  name : String
  expectedPower : Option ℤ
  gen : Option ℤ
  on_url : Option String
  off_url : Option String
  presumed_state : Option String
  requires_sync : Bool
deriving DecidableEq

/-- One entry of the `desiredDeviceStates` list: `{ name: ..., turned: "on"|"off" }`. -/
structure DeviceState where
  name : String
  turned : String
deriving DecidableEq

/-- The `simulation` settings object. -/
structure Simulation where
  enabled : Bool
  power : ℤ
deriving DecidableEq

/-- `total_power()`: the simulated power wins whenever it is truthy
(i.e. nonzero — JavaScript treats `0` as falsy); otherwise the sum of the
stored channel readings, negated when `invert_power_readings` is set.
Note the guard reads `simulation.power`, never `simulation.enabled`. -/
def total_power (sim : Simulation) (channel_power : List (String × ℤ))
    (invert_power_readings : Bool) : ℤ :=
  if sim.power ≠ 0 then sim.power
  else
    let power := (channel_power.map Prod.snd).sum
    if invert_power_readings then -power else power

/-- `compareDevices(a, b)`: descending by `expectedPower`; a device lacking
`expectedPower` sorts after one that has it; only the sign of the result
is ever used. -/
def compareDevices (a b : Device) : ℤ :=
  match a.expectedPower, b.expectedPower with
  | some pa, some pb => pb - pa
  | some _, none => -1
  | none, some _ => 1
  | none, none => 0

/-- The inner scan of `manualSortDevices`: `maxIndex` starts at 0 and is
replaced only when `compareDevices(devices[i], devices[maxIndex]) < 0`
holds strictly, so ties keep the earliest index. -/
def maxIndexOf (l : List Device) : ℕ :=
  (List.range l.length).foldl
    (fun m i =>
      match l.get? i, l.get? m with
      | some di, some dm => if compareDevices di dm < 0 then i else m
      | _, _ => m)
    0

/-- The selection loop of `manualSortDevices`, with the list length as
fuel (each round removes exactly one element). -/
def manualSortGo : ℕ → List Device → List Device
  | 0, _ => []
  | fuel + 1, l =>
    if l.isEmpty then []
    else
      let m := maxIndexOf l
      match l.get? m with
      | none => []
      | some d => d :: manualSortGo fuel (l.eraseIdx m)

/-- `manualSortDevices(devices)`: repeatedly extract the device with the
largest `expectedPower` (earliest on ties). The JavaScript version
consumes its argument destructively; it is only ever called on a copy. -/
def manualSortDevices (l : List Device) : List Device :=
  manualSortGo l.length l

/-- The running accumulator of the decision loop in `check_power`:
`newDesiredDeviceStates`, `remainingPower` and `newExpectedPowerDraw`. -/
structure Alloc where
  desired : List DeviceState
  remaining : ℤ
  draw : ℤ
deriving DecidableEq

/-- The inner search-and-mutate of the decision loop: find the first
`deviceState` whose name matches and set it to "on". -/
def setOnFirst : List DeviceState → String → List DeviceState
  | [], _ => []
  | s :: rest, nm =>
    if s.name = nm then { s with turned := "on" } :: rest
    else s :: setOnFirst rest nm

/-- One step of the greedy pass over `sorted_devices`: a device is turned
on exactly when `remainingPower + device.expectedPower <= -power_headroom`.
A device without `expectedPower` never satisfies the comparison (in
JavaScript the sum is `NaN`), so it is skipped. -/
def greedyStep (headroom : ℤ) (acc : Alloc) (device : Device) : Alloc :=
  match device.expectedPower with
  | none => acc
  | some p =>
    if acc.remaining + p ≤ -headroom then
      { desired := setOnFirst acc.desired device.name
        remaining := acc.remaining + p
        draw := acc.draw + p }
    else acc

/-- The allocation part of `check_power`: every device starts "off",
then the single greedy pass walks `sorted_devices` (the catalog sorted by
`manualSortDevices`; the sort key fields `name` and `expectedPower` are
never mutated, so sorting per call equals the snapshot taken in `init`). -/
def computeAllocation (currentPower headroom : ℤ) (catalog : List Device) : Alloc :=
  (manualSortDevices catalog).foldl (greedyStep headroom)
    { desired := catalog.map (fun d => { name := d.name, turned := "off" })
      remaining := currentPower
      draw := 0 }

/-- One outbound network command (one `Call("HTTP.GET", ...)` submission).
The URL is a pure function of the device's `addr`/`type`/`channel`/url
fields; for the properties below the command is identified by the device
name and the direction carried in its `user_data` string. -/
structure Command where
  device : String
  dir : String
deriving DecidableEq

/-- `devices[device_name_index_map[deviceName]]`: the index map is built
from the catalog, so the lookup resolves a name to its device.  Names are
unique per the configuration contract. -/
def findDevice (devices : List Device) (deviceName : String) : Option Device :=
  devices.find? (fun d => d.name = deviceName)

/-- Replace the catalog entry carrying the given name (in-place mutation
of the device object in the JavaScript). -/
def updateDevice (devices : List Device) (deviceName : String) (device : Device) :
    List Device :=
  devices.map (fun d => if d.name = deviceName then device else d)

/-- `turn(deviceName, dir)`: validates the direction, suppresses the
command when the device is presumed to already be in that state and needs
no resync (clearing the resync flag when it does), updates
`presumed_state` optimistically before any network traffic, and then
issues one `Call` per applicable clause (`gen` set; `on_url` set and
turning on; `off_url` set and turning off).  In simulation mode it
returns right after the state update, issuing nothing.  The MQTT debug
publication and the dead `verifying` global are not device state and are
not modelled.  Returns the updated catalog and the issued commands. -/
def turn (sim : Simulation) (devices : List Device) (deviceName dir : String) :
    List Device × List Command :=
  if ¬(dir = "on" ∨ dir = "off") then (devices, [])
  else
    match findDevice devices deviceName with
    | none => (devices, [])
    | some device =>
      if device.presumed_state = some dir ∧ ¬device.requires_sync then (devices, [])
      else
        let rs := if device.presumed_state = some dir then false else device.requires_sync
        let device2 := { device with presumed_state := some dir, requires_sync := rs }
        let devices2 := updateDevice devices deviceName device2
        if sim.enabled then (devices2, [])
        else
          let cmds :=
            (match device.gen with
              | some _ => [{ device := deviceName, dir := dir : Command }]
              | none => []) ++
            (match device.on_url with
              | some _ => if dir = "on" then [{ device := deviceName, dir := dir : Command }] else []
              | none => []) ++
            (match device.off_url with
              | some _ => if dir = "off" then [{ device := deviceName, dir := dir : Command }] else []
              | none => [])
          (devices2, cmds)

/-- Submit every entry of a `desiredDeviceStates` list through `turn`,
threading the catalog, collecting the issued commands in order. -/
def turnAll (sim : Simulation) (devices : List Device) (states : List DeviceState) :
    List Device × List Command :=
  states.foldl
    (fun acc s =>
      let r := turn sim acc.1 s.name s.turned
      (r.1, acc.2 ++ r.2))
    (devices, [])

/-- Direction tag of a pending state record. -/
inductive StepDirection
  | stepUp
  | stepDown
deriving DecidableEq

/-- One record of the `pending_states` object: a candidate allocation
awaiting its debounce timer. -/
structure PendingState where
  activationTime : ℤ
  direction : StepDirection
  expectedPowerDraw : ℤ
  desiredDeviceStates : List DeviceState
deriving DecidableEq

/-- The mutable globals of the script that the decision path and the
completion callback touch.  `verifying`, the timers and the logger are
omitted: `verifying` is written but never read, and logging emits no
state change. -/
structure Controller where
  channel_power : List (String × ℤ)
  devices : List Device
  in_flight : ℤ
  current_expected_power_draw : ℤ
  current_desired_device_states : List DeviceState
  pending_states : List PendingState
deriving DecidableEq

/-- A log line, as far as the completion callback is concerned. -/
structure LogLine where
  level : String
  message : String
deriving DecidableEq

/-- `callback(result, error_code, error_message, user_data)`: decrements
`in_flight`, then only logs — a warning on a nonzero error code (no retry
logic exists), a debug line on success. -/
def callback (error_code : ℤ) (user_data : String) (c : Controller) :
    Controller × List LogLine :=
  let c2 := { c with in_flight := c.in_flight - 1 }
  if error_code ≠ 0 then (c2, [{ level := "warn", message := "fail " ++ user_data }])
  else (c2, [{ level := "debug", message := "success" }])

/-- `requestFullSync()`: `for (let d of devices)` iterates the device
objects themselves, so every device's `requires_sync` really is set. -/
def requestFullSync (devices : List Device) : List Device :=
  devices.map (fun d => { d with requires_sync := true })

/-- `init()`: `for (let d in devices)` binds `d` to the *index string*
("0", "1", ...), not to the device object.  `device_name_index_map[devices[d].name] = d`
therefore works, but `d.presumed_state = "unknown"` and
`d.requires_sync = true` assign properties to a string primitive, which
sloppy-mode JavaScript silently discards: the devices array is not
modified.  `sorted_devices` is computed from a copy of the catalog.
Returns the (unchanged) catalog, the name→index map and `sorted_devices`. -/
def init (catalog : List Device) :
    List Device × List (String × ℕ) × List Device :=
  (catalog,
   (List.range catalog.length).filterMap
     (fun i => (catalog.get? i).map (fun d => (d.name, i))),
   manualSortDevices catalog)

/-- The re-validation test of the pending-state loop (one tick):

  `(state.direction == "stepUp" && state.expectedPowerDraw <= newExpectedPowerDraw
      && state.expectedPowerDraw + power_headroom + (power_hysteresis_span/2) <= (-currentPower))
   || (state.direction == "stepDown" && state.expectedPowerDraw >= newExpectedPowerDraw
      && state.expectedPowerDraw + power_headroom - (power_hysteresis_span/2) <= (-currentPower))`

The halving is performed in ℚ, matching the exact double division of the
source. -/
def stillValid (headroom span newExpectedPowerDraw currentPower : ℤ)
    (s : PendingState) : Bool :=
  match s.direction with
  | .stepUp =>
      decide (s.expectedPowerDraw ≤ newExpectedPowerDraw) &&
      decide ((s.expectedPowerDraw : ℚ) + (headroom : ℚ) + (span : ℚ) / 2 ≤ -(currentPower : ℚ))
  | .stepDown =>
      decide (newExpectedPowerDraw ≤ s.expectedPowerDraw) &&
      decide ((s.expectedPowerDraw : ℚ) + (headroom : ℚ) - (span : ℚ) / 2 ≤ -(currentPower : ℚ))

/-- `pending_states[newExpectedPowerDraw]` — the object is keyed by the
candidate draw, so absence means no record with that draw. -/
def lookupPending (pending : List PendingState) (draw : ℤ) : Option PendingState :=
  pending.find? (fun s => s.expectedPowerDraw = draw)

/-- The storing step of `check_power`: when the freshly computed draw
differs from the currently applied one and no record for that exact draw
exists yet, append a new pending record whose `activationTime` is
`Date.now()` plus the increase (step up) or decrease (step down)
threshold duration in milliseconds. -/
def addPending (now upDurationMs downDurationMs : ℤ)
    (currentDraw newDraw : ℤ) (newStates : List DeviceState)
    (pending : List PendingState) : List PendingState :=
  if currentDraw ≠ newDraw ∧ lookupPending pending newDraw = none then
    if currentDraw < newDraw then
      pending ++ [{ activationTime := now + upDurationMs, direction := .stepUp,
                    expectedPowerDraw := newDraw, desiredDeviceStates := newStates }]
    else
      pending ++ [{ activationTime := now + downDurationMs, direction := .stepDown,
                    expectedPowerDraw := newDraw, desiredDeviceStates := newStates }]
  else pending

/-- Accumulator of the pending-state loop: the surviving records, the
possibly updated current allocation, the `appliedAnyState` flag, the
records applied this tick, the catalog threaded through `turn`, and the
commands issued so far. -/
structure TickAcc where
  devices : List Device
  kept : List PendingState
  currentDraw : ℤ
  currentStates : List DeviceState
  appliedAny : Bool
  applied : List PendingState
  commands : List Command
deriving DecidableEq

/-- One iteration of `for (let key in pending_states)`: a record that
fails `stillValid` is deleted with no side effect; a valid record whose
`activationTime` has been reached is applied (its allocation becomes
current, each of its device states is submitted through `turn`, the
record is deleted); a valid record still waiting is kept. -/
def pendingStep (sim : Simulation) (headroom span : ℤ)
    (now newExpectedPowerDraw currentPower : ℤ)
    (acc : TickAcc) (s : PendingState) : TickAcc :=
  if stillValid headroom span newExpectedPowerDraw currentPower s then
    if s.activationTime ≤ now then
      let r := turnAll sim acc.devices s.desiredDeviceStates
      { devices := r.1
        kept := acc.kept
        currentDraw := s.expectedPowerDraw
        currentStates := s.desiredDeviceStates
        appliedAny := true
        applied := acc.applied ++ [s]
        commands := acc.commands ++ r.2 }
    else { acc with kept := acc.kept ++ [s] }
  else acc

/-- Result of one `check_power` tick. -/
structure TickResult where
  ctrl : Controller
  applied : List PendingState
  commands : List Command
deriving DecidableEq

/-- The decision part of `check_power` (after the channel map update):
compute the new desired allocation, store a pending record when the draw
changed, run the pending-state loop over the whole `pending_states`
object (the record stored this tick included: it is created before the
loop starts), and, when no record was applied, resubmit the currently
applied allocation through `turn` (the full-sync path). -/
def check_power_tick (sim : Simulation) (headroom span upDurationMs downDurationMs : ℤ)
    (now : ℤ) (c : Controller) : TickResult :=
  let currentPower := total_power sim c.channel_power true
  let alloc := computeAllocation currentPower headroom c.devices
  let pend := addPending now upDurationMs downDurationMs
    c.current_expected_power_draw alloc.draw alloc.desired c.pending_states
  let acc := pend.foldl
    (pendingStep sim headroom span now alloc.draw currentPower)
    { devices := c.devices
      kept := []
      currentDraw := c.current_expected_power_draw
      currentStates := c.current_desired_device_states
      appliedAny := false
      applied := []
      commands := [] }
  let fb := if acc.appliedAny then (acc.devices, ([] : List Command))
            else turnAll sim acc.devices acc.currentStates
  { ctrl := { c with
      devices := fb.1
      current_expected_power_draw := acc.currentDraw
      current_desired_device_states := acc.currentStates
      pending_states := acc.kept }
    applied := acc.applied
    commands := acc.commands ++ fb.2 }

/-! ### The toolbox call dispatcher

`Call` / `Cqueue` / `ErrorChk` from the bundled toolbox: `aC` counts
in-flight `Shelly.call` invocations, `cCache` is the overflow queue,
`cacheLimit` its capacity.  Completions arrive through `ErrorChk`; the
queue is drained by the `Cqueue` timer.

The scripts assign `callLimit = 3` in their settings section, but the
toolbox footer `var tH8= 0, ..., callLimit= 4, ...` executes afterwards
during the same top-level evaluation and overwrites it; `Setup()` then
only clamps values above 4.  The limit in force at runtime is therefore 4. -/

/-- The value assigned in the settings section ("number of outgoing calls
to devices at a time"). -/
def callLimit_setting : ℕ := 3

/-- The value assigned by the toolbox footer, which runs later. -/
def callLimit_toolbox : ℕ := 4

/-- The limit actually in force once `Setup()` has clamped it. -/
def callLimit_effective : ℕ :=
  if callLimit_toolbox > 4 then 4 else callLimit_toolbox

/-- Dispatcher state: in-flight count, overflow queue, and the order in
which requests have gone out on the wire so far. -/
structure DispState where
  aC : ℕ
  cCache : List ℕ
  issued : List ℕ
deriving DecidableEq

/-- The state at script start. -/
def dispInit : DispState := { aC := 0, cCache := [], issued := [] }

/-- `Call(...)`: below the limit the request goes out immediately and
`aC` is incremented; otherwise it is appended to `cCache` when there is
room (the immediately following `Cqueue()` run cannot drain, since
`aC >= callLimit` holds on this branch, so it only arms the timer);
beyond `cacheLimit` the request is dropped with an error. -/
def dispSubmit (limit cacheLimit : ℕ) (r : ℕ) (s : DispState) : DispState :=
  if s.aC < limit then { s with aC := s.aC + 1, issued := s.issued ++ [r] }
  else if s.cCache.length < cacheLimit then { s with cCache := s.cCache ++ [r] }
  else s

/-- `ErrorChk`: `aC--; if(aC<0) aC= 0;` — truncated subtraction on ℕ
models the clamp.  Runs on success and on failure alike. -/
def dispComplete (s : DispState) : DispState :=
  { s with aC := s.aC - 1 }

/-- The `while` loop of `Cqueue()` with the queue length as fuel: as long
as the queue is nonempty and a slot is free, pop the head and issue it. -/
def dispDrainGo (limit : ℕ) : ℕ → DispState → DispState
  | 0, s => s
  | fuel + 1, s =>
    match s.cCache with
    | [] => s
    | r :: rest =>
      if s.aC < limit then
        dispDrainGo limit fuel { aC := s.aC + 1, cCache := rest, issued := s.issued ++ [r] }
      else s

/-- One firing of the `Cqueue()` timer. -/
def dispDrain (limit : ℕ) (s : DispState) : DispState :=
  dispDrainGo limit s.cCache.length s

/-- The three kinds of dispatcher event. -/
inductive DispEvent
  | submit (r : ℕ)
  | complete
  | timer
deriving DecidableEq

/-- Dispatcher transition on one event. -/
def dispStep (limit cacheLimit : ℕ) (s : DispState) : DispEvent → DispState
  | .submit r => dispSubmit limit cacheLimit r s
  | .complete => dispComplete s
  | .timer => dispDrain limit s

/-- Run the dispatcher over a trace of events from the start state. -/
def dispRun (limit cacheLimit : ℕ) (events : List DispEvent) : DispState :=
  events.foldl (dispStep limit cacheLimit) dispInit

/-! ### The configured device catalog -/

/-- One configured relay with the fields the modelled logic reads.  The
configuration literals carry no `presumed_state` / `requires_sync` /
`on_url` / `off_url` properties. -/
def mkRelay (nm : String) (p : ℤ) : Device :=
  { name := nm, expectedPower := some p, gen := some 1, on_url := none,
    off_url := none, presumed_state := none, requires_sync := false }

/-- The `devices` array of the script's settings section. -/
def configuredDevices : List Device :=
  [mkRelay "1.1" 1000, mkRelay "1.2" 1000, mkRelay "1.3" 1000,
   mkRelay "2.1" 3000, mkRelay "2.2" 3000, mkRelay "2.3" 3000]

/-- The three-device catalog of the spec's end-to-end example. -/
def devA : Device := mkRelay "A" 1000
def devB : Device := mkRelay "B" 1000
def devC : Device := mkRelay "C" 3000

def exampleCatalog : List Device := [devA, devB, devC]

/-- A configured relay presumed to be on already (no resync needed). -/
def devOn : Device := { mkRelay "1.1" 1000 with presumed_state := some "on" }

/-- A controller snapshot used to exercise the theorems on concrete
input: fresh catalog, one call in flight, nothing applied or pending. -/
def sampleController : Controller :=
  { channel_power := []
    devices := configuredDevices
    in_flight := 1
    current_expected_power_draw := 0
    current_desired_device_states := []
    pending_states := [] }

/-- A controller at the start of a hysteresis scenario: example catalog,
nothing applied, nothing pending.  The simulated power -3600 drives the
allocation of the end-to-end example. -/
def pendingController : Controller :=
  { channel_power := []
    devices := exampleCatalog
    in_flight := 0
    current_expected_power_draw := 0
    current_desired_device_states := []
    pending_states := [] }

/-- The step-up record `check_power` creates for `pendingController` on a
tick at `Date.now() = 5000` with surplus -3600: target draw 3000,
activation after the 60 s increase threshold. -/
def pendingRecord : PendingState :=
  { activationTime := 65000
    direction := .stepUp
    expectedPowerDraw := 3000
    desiredDeviceStates :=
      [{ name := "A", turned := "off" }, { name := "B", turned := "off" },
       { name := "C", turned := "on" }] }

/-! ## Helper lemmas -/

/-- A property preserved by every step of a left fold holds of the result. -/
theorem foldl_preserves {α β : Type} (P : β → Prop) (f : β → α → β)
    (hstep : ∀ b a, P b → P (f b a)) :
    ∀ (l : List α) (b : β), P b → P (l.foldl f b)
  | [], _, hb => hb
  | a :: t, b, hb => foldl_preserves P f hstep t (f b a) (hstep b a hb)

/-- A successful name lookup returns a device carrying that name. -/
theorem findDevice_name {devices : List Device} {nm : String} {d : Device}
    (h : findDevice devices nm = some d) : d.name = nm := by
  have := List.find?_some h
  simpa using this

/-- After replacing the entries named `nm`, looking `nm` up returns the
replacement, provided the lookup succeeded before. -/
theorem findDevice_updateDevice {devices : List Device} {nm : String}
    {d : Device} (d2 : Device) (h : findDevice devices nm = some d)
    (h2 : d2.name = nm) :
    findDevice (updateDevice devices nm d2) nm = some d2 := by
  induction devices with
  | nil => simp [findDevice] at h
  | cons x xs ih =>
    by_cases hx : x.name = nm
    · simp [findDevice, updateDevice, hx, h2]
    · have hrec : findDevice xs nm = some d := by
        simpa [findDevice, List.find?, hx] using h
      have := ih hrec
      simpa [findDevice, updateDevice, hx, List.find?] using this

/-! ## Claim theorems -/

/-- Claim C1: the sort-then-greedy allocation pass is a pure deterministic
function of its inputs — identical surplus, catalog and headroom give
identical per-device assignments and identical expected power draw, and a
repeated call returns bit-identical output. -/
theorem computeAllocation_deterministic (S S2 h h2 : ℤ) (C C2 : List Device)
    (hS : S = S2) (hh : h = h2) (hC : C = C2) :
    computeAllocation S h C = computeAllocation S2 h2 C2 ∧
    (computeAllocation S h C).desired = (computeAllocation S2 h2 C2).desired ∧
    (computeAllocation S h C).draw = (computeAllocation S2 h2 C2).draw ∧
    computeAllocation S h C = computeAllocation S h C := by
  subst hS; subst hh; subst hC
  exact ⟨rfl, rfl, rfl, rfl⟩

theorem computeAllocation_deterministic_witness :
    computeAllocation (-3600) 500 exampleCatalog = computeAllocation (-3600) 500 exampleCatalog ∧
    (computeAllocation (-3600) 500 exampleCatalog).desired =
      (computeAllocation (-3600) 500 exampleCatalog).desired ∧
    (computeAllocation (-3600) 500 exampleCatalog).draw =
      (computeAllocation (-3600) 500 exampleCatalog).draw ∧
    computeAllocation (-3600) 500 exampleCatalog = computeAllocation (-3600) 500 exampleCatalog :=
  computeAllocation_deterministic (-3600) (-3600) 500 500 exampleCatalog exampleCatalog
    rfl rfl rfl

/-- Claim C6: on the catalog [{A,1000},{B,1000},{C,3000}] with headroom
500 and surplus -3600 the sort yields [C,A,B] and the greedy pass turns
exactly C on, for an expected power draw of 3000. -/
theorem end_to_end_example :
    (manualSortDevices exampleCatalog).map Device.name = ["C", "A", "B"] ∧
    (computeAllocation (-3600) 500 exampleCatalog).desired =
      [{ name := "A", turned := "off" }, { name := "B", turned := "off" },
       { name := "C", turned := "on" }] ∧
    (computeAllocation (-3600) 500 exampleCatalog).draw = 3000 := by
  decide

/-- Claim C7 counterexample: with simulation active and a configured
simulated power of 0, `total_power` does *not* return the simulated value
— `if (simulation.power)` is falsy at 0, so the live channel sum (here
-100, after polarity inversion) is returned instead. -/
theorem total_power_simulated_zero_counterexample :
    total_power { enabled := true, power := 0 } [("a", 100)] true = -100 ∧
    (-100 : ℤ) ≠ 0 := by
  decide

/-- Claim C7 (amended): whenever the configured simulated power value is
nonzero, `total_power` returns exactly it, ignoring every stored channel
reading, the polarity flag, and even the `simulation.enabled` switch;
a simulated value of zero does not override the live readings. -/
theorem total_power_simulation_override (sim : Simulation)
    (channels : List (String × ℤ)) (invert : Bool) (hp : sim.power ≠ 0) :
    total_power sim channels invert = sim.power := by
  unfold total_power
  simp [hp]

theorem total_power_simulation_override_witness :
    total_power { enabled := true, power := 800 } [("a", 100)] true = 800 :=
  total_power_simulation_override { enabled := true, power := 800 } [("a", 100)] true
    (by decide)

/-- Claim C9: when a dispatched command completes with a nonzero error
code, the completion handler decrements `in_flight`, emits one warning
log line, and changes nothing else: devices (so the optimistically set
presumed state is not rolled back), pending states, the applied
allocation and the channel map are untouched, and no retry command is
produced. -/
theorem callback_failure_only_decrements (error_code : ℤ) (user_data : String)
    (c : Controller) (herr : error_code ≠ 0) :
    (callback error_code user_data c).1 = { c with in_flight := c.in_flight - 1 } ∧
    (callback error_code user_data c).1.devices = c.devices ∧
    (callback error_code user_data c).1.pending_states = c.pending_states ∧
    (callback error_code user_data c).1.current_expected_power_draw =
      c.current_expected_power_draw ∧
    (callback error_code user_data c).1.current_desired_device_states =
      c.current_desired_device_states ∧
    (callback error_code user_data c).1.channel_power = c.channel_power ∧
    (callback error_code user_data c).2 =
      [{ level := "warn", message := "fail " ++ user_data }] := by
  unfold callback
  simp [herr]

theorem callback_failure_only_decrements_witness :
    (callback 1 "turn on 1.1" sampleController).1 =
      { sampleController with in_flight := sampleController.in_flight - 1 } ∧
    (callback 1 "turn on 1.1" sampleController).1.devices = sampleController.devices ∧
    (callback 1 "turn on 1.1" sampleController).1.pending_states =
      sampleController.pending_states ∧
    (callback 1 "turn on 1.1" sampleController).1.current_expected_power_draw =
      sampleController.current_expected_power_draw ∧
    (callback 1 "turn on 1.1" sampleController).1.current_desired_device_states =
      sampleController.current_desired_device_states ∧
    (callback 1 "turn on 1.1" sampleController).1.channel_power =
      sampleController.channel_power ∧
    (callback 1 "turn on 1.1" sampleController).2 =
      [{ level := "warn", message := "fail turn on 1.1" }] :=
  callback_failure_only_decrements 1 "turn on 1.1" sampleController (by decide)

/-- Claim C5: for a device whose presumed state already equals the
requested direction, `turn` issues zero network commands and leaves the
catalog untouched when the resync flag is clear; when the resync flag is
set (and the script is not in simulation mode, the device being a
configured relay: `gen` present, no extra urls), the same call issues
exactly one network command and clears the flag. -/
theorem turn_noop_suppression (sim : Simulation) (devices : List Device)
    (d : Device) (deviceName dir : String)
    (hdir : dir = "on" ∨ dir = "off")
    (hfind : findDevice devices deviceName = some d)
    (hps : d.presumed_state = some dir) :
    (d.requires_sync = false →
      turn sim devices deviceName dir = (devices, [])) ∧
    (d.requires_sync = true → sim.enabled = false → d.gen.isSome = true →
      d.on_url = none → d.off_url = none →
      (turn sim devices deviceName dir).2.length = 1 ∧
      findDevice (turn sim devices deviceName dir).1 deviceName =
        some { d with presumed_state := some dir, requires_sync := false }) := by
  have hname : d.name = deviceName := findDevice_name hfind
  constructor
  · intro hrs
    unfold turn
    simp [hdir, hfind, hps, hrs]
  · intro hrs hsim hgen hon hoff
    unfold turn
    rcases hg : d.gen with _ | g
    · rw [hg] at hgen; simp at hgen
    · constructor
      · simp [hdir, hfind, hps, hrs, hsim, hg, hon, hoff]
      · have hupd := findDevice_updateDevice
          { d with presumed_state := some dir, requires_sync := false } hfind hname
        simp only [hg, hon, hoff] at hupd
        simp [hdir, hfind, hps, hrs, hsim, hg, hon, hoff, hupd]

theorem turn_noop_suppression_witness :
    (devOn.requires_sync = false →
      turn { enabled := false, power := 0 } [devOn] "1.1" "on" = ([devOn], [])) ∧
    (devOn.requires_sync = true →
      Simulation.enabled { enabled := false, power := 0 } = false →
      devOn.gen.isSome = true → devOn.on_url = none → devOn.off_url = none →
      (turn { enabled := false, power := 0 } [devOn] "1.1" "on").2.length = 1 ∧
      findDevice (turn { enabled := false, power := 0 } [devOn] "1.1" "on").1 "1.1" =
        some { devOn with presumed_state := some "on", requires_sync := false }) :=
  turn_noop_suppression { enabled := false, power := 0 } [devOn] devOn "1.1" "on"
    (Or.inl rfl) (by decide) (by decide)

/-- Claim C10: when the presumed state differs from the requested
direction, `turn` sets the presumed state to the new direction and issues
the command, but leaves `requires_sync` exactly as it was — the flag is
cleared only on the presumed-equal branch, so a full-sync flag set on a
device survives a state-changing command and still forces a later
re-send. -/
theorem turn_change_keeps_resync_flag (sim : Simulation) (devices : List Device)
    (d : Device) (deviceName dir : String)
    (hdir : dir = "on" ∨ dir = "off")
    (hfind : findDevice devices deviceName = some d)
    (hps : d.presumed_state ≠ some dir) :
    findDevice (turn sim devices deviceName dir).1 deviceName =
      some { d with presumed_state := some dir } ∧
    (sim.enabled = false → d.gen.isSome = true →
      (turn sim devices deviceName dir).2 ≠ []) := by
  have hname : d.name = deviceName := findDevice_name hfind
  have hupd := findDevice_updateDevice
    { d with presumed_state := some dir } hfind hname
  constructor
  · unfold turn
    rcases hs : sim.enabled with _ | _
    · simp [hdir, hfind, hps, hupd]
    · simp [hdir, hfind, hps, hupd]
  · intro hsim hgen
    unfold turn
    rcases hg : d.gen with _ | g
    · rw [hg] at hgen; simp at hgen
    · simp [hdir, hfind, hps, hsim, hg]

theorem turn_change_keeps_resync_flag_witness :
    (findDevice (turn { enabled := false, power := 0 }
        [{ mkRelay "1.1" 1000 with requires_sync := true }] "1.1" "on").1 "1.1" =
      some { mkRelay "1.1" 1000 with presumed_state := some "on", requires_sync := true } ∧
    (Simulation.enabled { enabled := false, power := 0 } = false →
      ({ mkRelay "1.1" 1000 with requires_sync := true } : Device).gen.isSome = true →
      (turn { enabled := false, power := 0 }
        [{ mkRelay "1.1" 1000 with requires_sync := true }] "1.1" "on").2 ≠ [])) := by
  have h := turn_change_keeps_resync_flag { enabled := false, power := 0 }
    [{ mkRelay "1.1" 1000 with requires_sync := true }]
    { mkRelay "1.1" 1000 with requires_sync := true } "1.1" "on"
    (Or.inl rfl) (by decide) (by decide)
  simpa using h

/-- Claim C8 (code bug): `init()` iterates `for (let d in devices)`, so
`d` is the index string and the assignments `d.presumed_state = "unknown"`
and `d.requires_sync = true` are discarded — after initialization every
configured device still has `presumed_state` undefined (not "unknown")
and its resync flag unset.  (The only other write to `presumed_state` in
the program is the one inside `turn`, the command-issuance path.) -/
theorem init_leaves_presumed_state_undefined :
    ((init configuredDevices).1.map Device.presumed_state).all Option.isNone = true ∧
    (init configuredDevices).1.map Device.presumed_state ≠
      List.replicate 6 (some "unknown") ∧
    (init configuredDevices).1 = configuredDevices := by
  decide

/-- Claim C4 (code bug): the settings section assigns `callLimit = 3`,
but the toolbox footer's `var ... callLimit= 4 ...` executes afterwards
and overwrites it, and `Setup()` only clamps values above 4 — so four
simultaneous submissions from an idle dispatcher all go out immediately:
the in-flight count reaches 4, exceeding the configured cap of 3.
(Queued overflow is still released from the queue head, oldest first, as
`dispDrainGo` shows.) -/
theorem dispatcher_exceeds_configured_cap :
    callLimit_setting = 3 ∧
    callLimit_effective = 4 ∧
    (dispRun callLimit_effective 40
      [.submit 0, .submit 1, .submit 2, .submit 3]).aC = 4 ∧
    ¬((dispRun callLimit_effective 40
      [.submit 0, .submit 1, .submit 2, .submit 3]).aC ≤ callLimit_setting) := by
  decide

/-- Case analysis of one greedy step: either the accumulator is returned
unchanged, or the device fit and its power is added. -/
theorem greedyStep_cases (h : ℤ) (acc : Alloc) (dev : Device) :
    greedyStep h acc dev = acc ∨
    ∃ p, dev.expectedPower = some p ∧ acc.remaining + p ≤ -h ∧
      greedyStep h acc dev =
        { desired := setOnFirst acc.desired dev.name
          remaining := acc.remaining + p
          draw := acc.draw + p } := by
  unfold greedyStep
  rcases hE : dev.expectedPower with _ | p
  · exact Or.inl rfl
  · by_cases hle : acc.remaining + p ≤ -h
    · exact Or.inr ⟨p, rfl, hle, if_pos hle⟩
    · exact Or.inl (if_neg hle)

/-- Claim C2: the greedy pass never violates the headroom bound — when at
least one device comes out ON, the surplus plus the expected draw of the
ON devices is at most `-headroom`, because each device was switched on
only under the check `remainingPower + expectedPower <= -headroom` and
skipped devices leave the running total unchanged. -/
theorem allocation_respects_headroom (S h : ℤ) (C : List Device)
    (hon : ∃ s ∈ (computeAllocation S h C).desired, s.turned = "on") :
    S + (computeAllocation S h C).draw ≤ -h := by
  have key : (computeAllocation S h C).remaining = S + (computeAllocation S h C).draw ∧
      (∀ s ∈ (computeAllocation S h C).desired, s.turned = "on" →
        (computeAllocation S h C).remaining ≤ -h) :=
    foldl_preserves
      (fun a : Alloc => a.remaining = S + a.draw ∧
        (∀ s ∈ a.desired, s.turned = "on" → a.remaining ≤ -h))
      (greedyStep h)
      (by
        intro b dev hb
        obtain ⟨hrem, hind⟩ := hb
        rcases greedyStep_cases h b dev with heq | ⟨p, hE, hle, heq⟩
        · rw [heq]
          exact ⟨hrem, hind⟩
        · rw [heq]
          constructor
          · show b.remaining + p = S + (b.draw + p)
            omega
          · intro s hs hturn
            show b.remaining + p ≤ -h
            exact hle)
      (manualSortDevices C)
      { desired := C.map (fun d => { name := d.name, turned := "off" })
        remaining := S
        draw := 0 }
      (by
        constructor
        · show S = S + 0
          omega
        · intro s hs hturn
          obtain ⟨d, -, rfl⟩ := List.mem_map.mp hs
          simp at hturn)
  obtain ⟨hrem, hind⟩ := key
  obtain ⟨s, hs, hturn⟩ := hon
  have := hind s hs hturn
  omega

theorem allocation_respects_headroom_witness :
    (-3600 : ℤ) + (computeAllocation (-3600) 500 exampleCatalog).draw ≤ -500 :=
  allocation_respects_headroom (-3600) 500 exampleCatalog (by decide)

/-- The branch conditions of `pendingStep` do not read the accumulator,
so the records applied and the records kept by the pending-state loop are
exactly the filters of the processed list by the validity test and the
activation deadline. -/
theorem pendingFold_spec (sim : Simulation) (headroom span now newDraw currentPower : ℤ)
    (l : List PendingState) :
    ∀ acc : TickAcc,
      (l.foldl (pendingStep sim headroom span now newDraw currentPower) acc).applied =
        acc.applied ++ l.filter
          (fun s => stillValid headroom span newDraw currentPower s &&
            decide (s.activationTime ≤ now)) ∧
      (l.foldl (pendingStep sim headroom span now newDraw currentPower) acc).kept =
        acc.kept ++ l.filter
          (fun s => stillValid headroom span newDraw currentPower s &&
            !decide (s.activationTime ≤ now)) := by
  induction l with
  | nil => intro acc; simp
  | cons s t ih =>
    intro acc
    obtain ⟨ha, hk⟩ := ih (pendingStep sim headroom span now newDraw currentPower acc s)
    rw [List.foldl_cons] at *
    by_cases hv : stillValid headroom span newDraw currentPower s = true
    · by_cases ht : s.activationTime ≤ now
      · constructor
        · rw [ha]
          simp [pendingStep, hv, ht]
        · rw [hk]
          simp [pendingStep, hv, ht]
      · constructor
        · rw [ha]
          simp [pendingStep, hv, ht]
        · rw [hk]
          simp [pendingStep, hv, ht]
    · rw [Bool.not_eq_true] at hv
      constructor
      · rw [ha]
        simp [pendingStep, hv]
      · rw [hk]
        simp [pendingStep, hv]

/-- Claim C3: a pending transition is applied (its target allocation
submitted to the device layer) on a tick exactly when its activation time
has been reached AND its validity condition still holds; a record whose
validity fails is removed with no command issued for it; in particular a
step-up record with activation time T+60000 is never applied on a tick
before T+60000; and every record first stored on this tick carries an
activation time of now plus the configured increase or decrease
threshold, so a cancelled record is never resurrected. -/
theorem pending_transition_lifecycle
    (sim : Simulation) (headroom span upMs downMs now currentPower newDraw : ℤ)
    (c : Controller) (pend : List PendingState) (p : PendingState)
    (hcp : currentPower = total_power sim c.channel_power true)
    (hnd : newDraw = (computeAllocation currentPower headroom c.devices).draw)
    (hpend : pend = addPending now upMs downMs c.current_expected_power_draw newDraw
      (computeAllocation currentPower headroom c.devices).desired c.pending_states)
    (hp : p ∈ pend) :
    (p ∈ (check_power_tick sim headroom span upMs downMs now c).applied ↔
      (stillValid headroom span newDraw currentPower p = true ∧ p.activationTime ≤ now)) ∧
    (stillValid headroom span newDraw currentPower p = false →
      p ∉ (check_power_tick sim headroom span upMs downMs now c).applied ∧
      p ∉ (check_power_tick sim headroom span upMs downMs now c).ctrl.pending_states) ∧
    (∀ T : ℤ, p.direction = StepDirection.stepUp → p.activationTime = T + 60000 →
      now < T + 60000 →
      p ∉ (check_power_tick sim headroom span upMs downMs now c).applied) ∧
    (p ∉ c.pending_states →
      p.activationTime = now + upMs ∨ p.activationTime = now + downMs) := by
  subst hcp
  subst hnd
  have hspec := pendingFold_spec sim headroom span now
    (computeAllocation (total_power sim c.channel_power true) headroom c.devices).draw
    (total_power sim c.channel_power true) pend
    { devices := c.devices
      kept := []
      currentDraw := c.current_expected_power_draw
      currentStates := c.current_desired_device_states
      appliedAny := false
      applied := []
      commands := [] }
  rw [hpend] at hspec
  have happ : (check_power_tick sim headroom span upMs downMs now c).applied =
      pend.filter (fun s =>
        stillValid headroom span
          (computeAllocation (total_power sim c.channel_power true) headroom c.devices).draw
          (total_power sim c.channel_power true) s &&
        decide (s.activationTime ≤ now)) := by
    rw [hpend]
    simpa [check_power_tick] using hspec.1
  have hkept : (check_power_tick sim headroom span upMs downMs now c).ctrl.pending_states =
      pend.filter (fun s =>
        stillValid headroom span
          (computeAllocation (total_power sim c.channel_power true) headroom c.devices).draw
          (total_power sim c.channel_power true) s &&
        !decide (s.activationTime ≤ now)) := by
    rw [hpend]
    simpa [check_power_tick] using hspec.2
  refine ⟨?_, ?_, ?_, ?_⟩
  · rw [happ, List.mem_filter]
    simp [hp]
  · intro hfail
    constructor
    · rw [happ, List.mem_filter]
      simp [hfail]
    · rw [hkept, List.mem_filter]
      simp [hfail]
  · intro T hdir hact hlt
    rw [happ, List.mem_filter]
    rintro ⟨-, hcond⟩
    rw [Bool.and_eq_true, decide_eq_true_iff] at hcond
    omega
  · intro hnotin
    rw [hpend] at hp
    unfold addPending at hp
    by_cases hcond : c.current_expected_power_draw ≠
        (computeAllocation (total_power sim c.channel_power true) headroom c.devices).draw ∧
        lookupPending c.pending_states
          (computeAllocation (total_power sim c.channel_power true) headroom c.devices).draw = none
    · rw [if_pos hcond] at hp
      by_cases hlt : c.current_expected_power_draw <
          (computeAllocation (total_power sim c.channel_power true) headroom c.devices).draw
      · rw [if_pos hlt] at hp
        rcases List.mem_append.mp hp with hmem | hmem
        · exact absurd hmem hnotin
        · left
          rw [List.mem_singleton.mp hmem]
      · rw [if_neg hlt] at hp
        rcases List.mem_append.mp hp with hmem | hmem
        · exact absurd hmem hnotin
        · right
          rw [List.mem_singleton.mp hmem]
    · rw [if_neg hcond] at hp
      exact absurd hp hnotin

theorem pending_transition_lifecycle_witness :
    (pendingRecord ∈
        (check_power_tick { enabled := false, power := -3600 } 500 2 60000 30000 5000
          pendingController).applied ↔
      (stillValid 500 2 3000 (-3600) pendingRecord = true ∧
        pendingRecord.activationTime ≤ 5000)) ∧
    (stillValid 500 2 3000 (-3600) pendingRecord = false →
      pendingRecord ∉
        (check_power_tick { enabled := false, power := -3600 } 500 2 60000 30000 5000
          pendingController).applied ∧
      pendingRecord ∉
        (check_power_tick { enabled := false, power := -3600 } 500 2 60000 30000 5000
          pendingController).ctrl.pending_states) ∧
    (∀ T : ℤ, pendingRecord.direction = StepDirection.stepUp →
      pendingRecord.activationTime = T + 60000 → 5000 < T + 60000 →
      pendingRecord ∉
        (check_power_tick { enabled := false, power := -3600 } 500 2 60000 30000 5000
          pendingController).applied) ∧
    (pendingRecord ∉ pendingController.pending_states →
      pendingRecord.activationTime = 5000 + 60000 ∨
      pendingRecord.activationTime = 5000 + 30000) :=
  pending_transition_lifecycle { enabled := false, power := -3600 } 500 2 60000 30000 5000
    (-3600) 3000 pendingController [pendingRecord] pendingRecord
    (by decide) (by decide) (by decide) (by decide)

end LoadShedding
